import Mathlib

/-!
Shallow embedding of the VMX bring-up core of the hypervisor-rs repository
(src/hypervisor/src/vmm.rs and src/hypervisor/src/vcpu.rs).

Modelling conventions:
* Machine integers (the u32 revision id, the u64 MSR and control-register
  values) are modelled as `Nat`; the bitwise operations agree with the
  machine ones on values below the width, and an explicit `% 2 ^ 32`
  appears where the source truncates to u32.
* The privileged side effects of the source (wrmsr, VMXON, VMPTRLD) are
  made observable as explicit traces: a function returns, next to its
  `Except` result, the list of MSR writes `(msr, value)` or hardware
  instructions it performed, in order.
* The x86-crate `Cr0`/`Cr4` bit-flag conversions (`from_bits_truncate`,
  also applied inside the `cr0()`/`cr4()` readers) keep exactly the flag
  bits the crate defines; they are modelled as bitwise AND with the
  corresponding defined-bit masks in `set_cr0_bits`/`set_cr4_bits`.  In
  `enable_vmx_operation` the CR4 read is modelled as the raw bit set:
  there the only bit at issue is CR4.VMXE (bit 13), a defined flag that
  the truncation preserves.
-/

/-- Modelled from the spec: the error type of error.rs is not under src/;
the variant names are the ones vmm.rs and vcpu.rs construct
(`VirtualToPhysicalAddressFailed`, `VMXBIOSLock`) plus one variant per
hardware instruction for the spec's InstructionFailure taxonomy. -/
inductive HypervisorError
  | VirtualToPhysicalAddressFailed
  | VMXBIOSLock
  | VMXONFailed
  | VMPTRLDFailed
  | VMLAUNCHFailed
deriving DecidableEq

/-- Bit 0 of IA32_FEATURE_CONTROL, `const VMX_LOCK_BIT: u64 = 1 << 0` in vmm.rs. -/
def VMX_LOCK_BIT : Nat := 1 <<< 0

/-- Bit 2 of IA32_FEATURE_CONTROL, `const VMXON_OUTSIDE_SMX: u64 = 1 << 2` in vmm.rs. -/
def VMXON_OUTSIDE_SMX : Nat := 1 <<< 2

/-- The IA32_FEATURE_CONTROL MSR number (0x3A), from the x86 crate's msr module. -/
def IA32_FEATURE_CONTROL : Nat := 0x3a

/-- Embedding of `Vmm::set_lock_bit` (vmm.rs lines 97-115).  Input: the value
read from IA32_FEATURE_CONTROL.  Output: the list of `wrmsr` writes performed
(as `(msr, value)` pairs) and the returned `Result`. -/
def set_lock_bit (ia32_feature_control : Nat) :
    List (Nat × Nat) × Except HypervisorError Unit :=
  if ia32_feature_control &&& VMX_LOCK_BIT == 0 then
    ([(IA32_FEATURE_CONTROL, VMXON_OUTSIDE_SMX ||| VMX_LOCK_BIT ||| ia32_feature_control)],
      .ok ())
  else if ia32_feature_control &&& VMXON_OUTSIDE_SMX == 0 then
    ([], .error .VMXBIOSLock)
  else
    ([], .ok ())

/-- CR4.VMXE, bit 13: `Cr4::CR4_ENABLE_VMX` in the x86 crate. -/
def CR4_ENABLE_VMX : Nat := 1 <<< 13

/-- Embedding of `Vmm::enable_vmx_operation` (vmm.rs lines 85-94).  Inputs:
the current CR4 value and the IA32_FEATURE_CONTROL value.  Output: the CR4
value written back (bit 13 forced on, written before the lock check), the
MSR writes performed by the nested `set_lock_bit`, and the `Result`. -/
def enable_vmx_operation (cr4 feature_control : Nat) :
    Nat × List (Nat × Nat) × Except HypervisorError Unit :=
  let cr4_after := cr4 ||| CR4_ENABLE_VMX
  let r := set_lock_bit feature_control
  (cr4_after, r.1, r.2)

/-- The union of the flag bits defined by the x86 crate's `Cr0` bitflags
type (PE, MP, EM, TS, ET, NE, WP, AM, NW, CD, PG): bits 0-5, 16, 18 and
29-31.  `Cr0::from_bits_truncate` keeps exactly these bits. -/
def CR0_DEFINED_BITS : Nat := 0xE005003F

/-- The union of the flag bits defined by the x86 crate's `Cr4` bitflags
type: bits 0-11, 13, 14, 16-18 and 20-22.  `Cr4::from_bits_truncate` keeps
exactly these bits. -/
def CR4_DEFINED_BITS : Nat := 0x776FFF

/-- Embedding of `Vmm::set_cr0_bits` (vmm.rs lines 127-137): the CR0 value
written back is `(cr0 | FIXED0) & FIXED1` where the initial value (read via
`cr0()`) and both fixed masks (read from IA32_VMX_CR0_FIXED0 /
IA32_VMX_CR0_FIXED1) pass through `Cr0::from_bits_truncate`, which drops
every bit outside the defined `Cr0` flags. -/
def set_cr0_bits (cr0 ia32_vmx_cr0_fixed0 ia32_vmx_cr0_fixed1 : Nat) : Nat :=
  ((cr0 &&& CR0_DEFINED_BITS) ||| (ia32_vmx_cr0_fixed0 &&& CR0_DEFINED_BITS)) &&&
    (ia32_vmx_cr0_fixed1 &&& CR0_DEFINED_BITS)

/-- Embedding of `Vmm::set_cr4_bits` (vmm.rs lines 140-150): the CR4 value
written back is `(cr4 | FIXED0) & FIXED1` where the initial value (read via
`cr4()`) and both fixed masks (read from IA32_VMX_CR4_FIXED0 /
IA32_VMX_CR4_FIXED1) pass through `Cr4::from_bits_truncate`, which drops
every bit outside the defined `Cr4` flags. -/
def set_cr4_bits (cr4 ia32_vmx_cr4_fixed0 ia32_vmx_cr4_fixed1 : Nat) : Nat :=
  ((cr4 &&& CR4_DEFINED_BITS) ||| (ia32_vmx_cr4_fixed0 &&& CR4_DEFINED_BITS)) &&&
    (ia32_vmx_cr4_fixed1 &&& CR4_DEFINED_BITS)

/-- Embedding of `Vmm::adjust_control_registers` (vmm.rs lines 118-124):
applies the CR0 merge and then, independently, the CR4 merge. -/
def adjust_control_registers (cr0 f00 f01 cr4 f40 f41 : Nat) : Nat × Nat :=
  (set_cr0_bits cr0 f00 f01, set_cr4_bits cr4 f40 f41)

/-- The 64-bit one's complement, modelling `!x` on a u64 value. -/
def complement64 (x : Nat) : Nat := x ^^^ (2 ^ 64 - 1)

/-- Embedding of `revision_id.set_bit(31, false)` on the u32 `revision_id`
field (vmm.rs lines 56 and 76): clearing bit 31 of a u32 is a bitwise AND
with 0x7FFFFFFF. -/
def set_bit31_false (v : Nat) : Nat := v &&& (2 ^ 31 - 1)

/-- The per-processor fields of `Vcpu` that vmm.rs's init functions touch
(the direct-field shape used by vmm.rs: three region physical-address
caches and the two region revision-id headers). -/
structure VcpuEntry where
  msr_bitmap_physical_address : Nat
  vmxon_physical_address : Nat
  vmcs_physical_address : Nat
  vmxon_revision_id : Nat
  vmcs_revision_id : Nat
deriving DecidableEq

/-- A privileged VMX instruction invocation, recorded with its physical
address operand. -/
inductive HwInstr
  | VMXON (pa : Nat)
  | VMPTRLD (pa : Nat)
deriving DecidableEq

/-- Embedding of `Vmm::init_msr_bitmap` (vmm.rs lines 31-42).  Input: the
per-processor entry and the result `pa` of `PhysicalAddress::pa_from_va` on
the MSR-bitmap region.  The source stores the translation result into the
field first and only then checks it against the 0 sentinel. -/
def init_msr_bitmap (e : VcpuEntry) (pa : Nat) :
    VcpuEntry × Except HypervisorError Unit :=
  let e := { e with msr_bitmap_physical_address := pa }
  if e.msr_bitmap_physical_address == 0 then
    (e, .error .VirtualToPhysicalAddressFailed)
  else
    (e, .ok ())

/-- Embedding of `Vmm::init_vmxon` (vmm.rs lines 45-62).  Inputs: the entry,
the translation result `pa` for the VMXON region, the raw u32 result of
`Support::get_vmcs_revision_id()`, and whether the VMXON instruction
succeeds.  Output: the updated entry, the hardware instructions invoked,
and the `Result`.  The source stores `pa`, checks the 0 sentinel, stamps the
revision id in two steps (assign, then clear bit 31), then executes VMXON. -/
def init_vmxon (e : VcpuEntry) (pa raw : Nat) (vmxon_succeeds : Bool) :
    VcpuEntry × List HwInstr × Except HypervisorError Unit :=
  let e := { e with vmxon_physical_address := pa }
  if e.vmxon_physical_address == 0 then
    (e, [], .error .VirtualToPhysicalAddressFailed)
  else
    let e := { e with vmxon_revision_id := raw % 2 ^ 32 }
    let e := { e with vmxon_revision_id := set_bit31_false e.vmxon_revision_id }
    if vmxon_succeeds then
      (e, [.VMXON pa], .ok ())
    else
      (e, [.VMXON pa], .error .VMXONFailed)

/-- Embedding of `Vmm::init_vmcs` (vmm.rs lines 65-82): same shape as
`init_vmxon` for the VMCS region, ending in VMPTRLD. -/
def init_vmcs (e : VcpuEntry) (pa raw : Nat) (vmptrld_succeeds : Bool) :
    VcpuEntry × List HwInstr × Except HypervisorError Unit :=
  let e := { e with vmcs_physical_address := pa }
  if e.vmcs_physical_address == 0 then
    (e, [], .error .VirtualToPhysicalAddressFailed)
  else
    let e := { e with vmcs_revision_id := raw % 2 ^ 32 }
    let e := { e with vmcs_revision_id := set_bit31_false e.vmcs_revision_id }
    if vmptrld_succeeds then
      (e, [.VMPTRLD pa], .ok ())
    else
      (e, [.VMPTRLD pa], .error .VMPTRLDFailed)

/-- The per-call machine environment consumed by one `virtualize_cpu` call:
the register and MSR values read, the address-translation results for the
three regions, the raw revision id, and the outcome of each privileged
instruction. -/
structure Env where
  cr4 : Nat
  feature_control : Nat
  msr_bitmap_pa : Nat
  vmxon_pa : Nat
  vmcs_pa : Nat
  revision_id : Nat
  vmxon_succeeds : Bool
  vmptrld_succeeds : Bool
  vmlaunch_succeeds : Bool
deriving DecidableEq

/-- The per-processor region bundle owned by a `Vcpu` through its once-cell. -/
structure VcpuData where
  entry : VcpuEntry
deriving DecidableEq

/-- Modelled from the spec: `VcpuData::new` lives in vcpu_data.rs, which is
not under src/.  Per spec section 4.3 the construction performs the three
region setups (MSR bitmap, VMXON, VMCS — the procedures embedded above from
vmm.rs) and fails atomically: the first failing setup fails the whole
construction and no partially-initialized `VcpuData` is produced. -/
def VcpuData.new (env : Env) : Except HypervisorError VcpuData :=
  let e0 : VcpuEntry := ⟨0, 0, 0, 0, 0⟩
  let r1 := init_msr_bitmap e0 env.msr_bitmap_pa
  match r1.2 with
  | .error err => .error err
  | .ok _ =>
    let r2 := init_vmxon r1.1 env.vmxon_pa env.revision_id env.vmxon_succeeds
    match r2.2.2 with
    | .error err => .error err
    | .ok _ =>
      let r3 := init_vmcs r2.1 env.vmcs_pa env.revision_id env.vmptrld_succeeds
      match r3.2.2 with
      | .error err => .error err
      | .ok _ => .ok ⟨r3.1⟩

/-- Embedding of the `Vcpu` struct (vcpu.rs lines 9-14): the processor index
and the `OnceCell<Box<VcpuData>>`, modelled as `Option VcpuData` (empty or
filled). -/
structure Vcpu where
  index : Nat
  data : Option VcpuData
deriving DecidableEq

/-- Embedding of `Vcpu::new` (vcpu.rs lines 17-24): stores the index and an
empty once-cell. -/
def Vcpu.new (index : Nat) : Vcpu := ⟨index, none⟩

/-- Modelled semantics of `core::cell::OnceCell::get_or_try_init`, used by
vcpu.rs line 44: if the cell is filled, return the stored value without
running the closure; otherwise run the closure, and on `Ok` fill the cell
with the value while on `Err` leave the cell empty and return the error. -/
def getOrTryInit (cell : Option VcpuData)
    (f : Unit → Except HypervisorError VcpuData) :
    Option VcpuData × Except HypervisorError VcpuData :=
  match cell with
  | some v => (some v, .ok v)
  | none =>
    match f () with
    | .ok v => (some v, .ok v)
    | .error e => (none, .error e)

/-- One observable step of `virtualize_cpu`; `VcpuDataNew` is recorded
exactly when the `VcpuData::new` closure body runs. -/
inductive Step
  | EnableVmx
  | AdjustControlRegisters
  | VcpuDataNew
  | Vmlaunch
deriving DecidableEq

/-- Embedding of `Vcpu::virtualize_cpu` (vcpu.rs lines 27-51): enable VMX
operation (propagating its error), adjust the control registers, obtain or
initialize the `VcpuData` through the once-cell (propagating a construction
error), then execute VMLAUNCH.  The `support::` wrappers called by vcpu.rs
live in support.rs, which is not under src/; they are modelled from the spec
as the corresponding `Vmm` procedures embedded above.  Output: the updated
`Vcpu`, the trace of steps executed, and the `Result`. -/
def virtualize_cpu (v : Vcpu) (env : Env) :
    Vcpu × List Step × Except HypervisorError Unit :=
  match (enable_vmx_operation env.cr4 env.feature_control).2.2 with
  | .error e => (v, [.EnableVmx], .error e)
  | .ok _ =>
    let steps0 : List Step := [.EnableVmx, .AdjustControlRegisters]
    let ctorSteps : List Step := if v.data.isNone then [.VcpuDataNew] else []
    match getOrTryInit v.data (fun _ => VcpuData.new env) with
    | (data1, .error e) => ({ v with data := data1 }, steps0 ++ ctorSteps, .error e)
    | (data1, .ok _) =>
      let v1 := { v with data := data1 }
      if env.vmlaunch_succeeds then
        (v1, steps0 ++ ctorSteps ++ [.Vmlaunch], .ok ())
      else
        (v1, steps0 ++ ctorSteps ++ [.Vmlaunch], .error .VMLAUNCHFailed)

/-- Runs a finite sequence of `virtualize_cpu` calls on the same `Vcpu`,
threading the handle through and concatenating the step traces. -/
def runCalls (v : Vcpu) (envs : List Env) : Vcpu × List Step :=
  match envs with
  | [] => (v, [])
  | e :: rest =>
    let r := virtualize_cpu v e
    let rr := runCalls r.1 rest
    (rr.1, r.2.1 ++ rr.2)

/-- Shared helper: bit i of the constant 5 (= the lock and outside-SMX mask)
is clear for every i other than 0 and 2. -/
theorem testBit_five_eq_false (i : Nat) (h0 : i ≠ 0) (h2 : i ≠ 2) :
    Nat.testBit 5 i = false := by
  match i with
  | 0 => exact absurd rfl h0
  | 1 => decide
  | 2 => exact absurd rfl h2
  | (n + 3) =>
    apply Nat.testBit_lt_two_pow
    have h8 : (2 : Nat) ^ 3 ≤ 2 ^ (n + 3) := Nat.pow_le_pow_right (by norm_num) (by omega)
    omega

/-- Shared helper: on the locked-without-outside-SMX branch, `set_lock_bit`
performs no write and fails with `VMXBIOSLock`. -/
theorem set_lock_bit_locked_eq (fc : Nat)
    (h1 : fc &&& VMX_LOCK_BIT ≠ 0) (h2 : fc &&& VMXON_OUTSIDE_SMX = 0) :
    set_lock_bit fc = ([], .error .VMXBIOSLock) := by
  simp [set_lock_bit, h1, h2]

/-- C1: for every IA32_FEATURE_CONTROL value whose lock bit (bit 0) is 0,
`set_lock_bit` performs exactly one MSR write, to IA32_FEATURE_CONTROL,
whose value is `feature_control | lock_bit | outside_smx` — bits 0 and 2
set, every other bit preserved — and returns success. -/
theorem set_lock_bit_unlocked_writes_once (fc : Nat) (h : fc &&& VMX_LOCK_BIT = 0) :
    (set_lock_bit fc).1 =
      [(IA32_FEATURE_CONTROL, VMXON_OUTSIDE_SMX ||| VMX_LOCK_BIT ||| fc)] ∧
    (set_lock_bit fc).2 = .ok () ∧
    VMXON_OUTSIDE_SMX ||| VMX_LOCK_BIT ||| fc = fc ||| VMX_LOCK_BIT ||| VMXON_OUTSIDE_SMX ∧
    (VMXON_OUTSIDE_SMX ||| VMX_LOCK_BIT ||| fc).testBit 0 = true ∧
    (VMXON_OUTSIDE_SMX ||| VMX_LOCK_BIT ||| fc).testBit 2 = true ∧
    ∀ i, i ≠ 0 → i ≠ 2 →
      (VMXON_OUTSIDE_SMX ||| VMX_LOCK_BIT ||| fc).testBit i = fc.testBit i := by
  have h5 : VMXON_OUTSIDE_SMX ||| VMX_LOCK_BIT = (5 : Nat) := by decide
  refine ⟨by simp [set_lock_bit, h], by simp [set_lock_bit, h], ?_, ?_, ?_, ?_⟩
  · apply Nat.eq_of_testBit_eq
    intro i
    simp only [Nat.testBit_lor]
    cases fc.testBit i <;> cases (VMX_LOCK_BIT).testBit i <;>
      cases (VMXON_OUTSIDE_SMX).testBit i <;> simp
  · rw [h5, Nat.testBit_lor]
    simp [show Nat.testBit 5 0 = true from by decide]
  · rw [h5, Nat.testBit_lor]
    simp [show Nat.testBit 5 2 = true from by decide]
  · intro i h0 h2
    rw [h5, Nat.testBit_lor, testBit_five_eq_false i h0 h2]
    simp

/-- C1 witness: the theorem applied at feature_control = 8. -/
theorem set_lock_bit_unlocked_writes_once_witness :
    (8 : Nat) &&& VMX_LOCK_BIT = 0 ∧
    ((set_lock_bit 8).1 =
        [(IA32_FEATURE_CONTROL, VMXON_OUTSIDE_SMX ||| VMX_LOCK_BIT ||| 8)] ∧
      (set_lock_bit 8).2 = .ok () ∧
      VMXON_OUTSIDE_SMX ||| VMX_LOCK_BIT ||| 8 = 8 ||| VMX_LOCK_BIT ||| VMXON_OUTSIDE_SMX ∧
      (VMXON_OUTSIDE_SMX ||| VMX_LOCK_BIT ||| (8 : Nat)).testBit 0 = true ∧
      (VMXON_OUTSIDE_SMX ||| VMX_LOCK_BIT ||| (8 : Nat)).testBit 2 = true ∧
      ∀ i, i ≠ 0 → i ≠ 2 →
        (VMXON_OUTSIDE_SMX ||| VMX_LOCK_BIT ||| (8 : Nat)).testBit i = (8 : Nat).testBit i) :=
  ⟨by decide, set_lock_bit_unlocked_writes_once 8 (by decide)⟩

/-- C2: for every IA32_FEATURE_CONTROL value with lock bit (bit 0) set and
VMXON-outside-SMX bit (bit 2) clear, whatever the other bits,
`set_lock_bit` performs no MSR write and returns the `VMXBIOSLock` error. -/
theorem set_lock_bit_firmware_lock (fc : Nat)
    (h1 : fc &&& VMX_LOCK_BIT ≠ 0) (h2 : fc &&& VMXON_OUTSIDE_SMX = 0) :
    set_lock_bit fc = ([], .error .VMXBIOSLock) :=
  set_lock_bit_locked_eq fc h1 h2

/-- C2 witness: the theorem applied at feature_control = 1. -/
theorem set_lock_bit_firmware_lock_witness :
    ((1 : Nat) &&& VMX_LOCK_BIT ≠ 0 ∧ (1 : Nat) &&& VMXON_OUTSIDE_SMX = 0) ∧
    set_lock_bit 1 = ([], .error .VMXBIOSLock) :=
  ⟨⟨by decide, by decide⟩, set_lock_bit_firmware_lock 1 (by decide) (by decide)⟩

/-- C9: with the lock bit set and the outside-SMX bit clear,
`enable_vmx_operation` returns the `VMXBIOSLock` error; on this path the
CR4 value was already written back with the VMX-enable bit (bit 13) set —
the CR4 write precedes the lock check — and no MSR write or further
bring-up step happens inside the call. -/
theorem enable_vmx_bios_lock_path (cr4 fc : Nat)
    (h1 : fc &&& VMX_LOCK_BIT ≠ 0) (h2 : fc &&& VMXON_OUTSIDE_SMX = 0) :
    enable_vmx_operation cr4 fc = (cr4 ||| CR4_ENABLE_VMX, [], .error .VMXBIOSLock) ∧
    (cr4 ||| CR4_ENABLE_VMX).testBit 13 = true := by
  constructor
  · simp [enable_vmx_operation, set_lock_bit_locked_eq fc h1 h2]
  · rw [Nat.testBit_lor]
    simp [show Nat.testBit CR4_ENABLE_VMX 13 = true from by decide]

/-- C9 witness: the theorem applied at cr4 = 0, feature_control = 1. -/
theorem enable_vmx_bios_lock_path_witness :
    ((1 : Nat) &&& VMX_LOCK_BIT ≠ 0 ∧ (1 : Nat) &&& VMXON_OUTSIDE_SMX = 0) ∧
    (enable_vmx_operation 0 1 = (0 ||| CR4_ENABLE_VMX, [], .error .VMXBIOSLock) ∧
      ((0 : Nat) ||| CR4_ENABLE_VMX).testBit 13 = true) :=
  ⟨⟨by decide, by decide⟩, enable_vmx_bios_lock_path 0 1 (by decide) (by decide)⟩

/-- Shared helper: the truncated merge keeps every FIXED0 bit whenever each
FIXED0 bit is both a FIXED1 bit and a defined flag bit. -/
theorem truncated_merge_keeps_fixed0 (r f0 f1 m : Nat)
    (h : f0 &&& f1 = f0) (hd : f0 &&& m = f0) :
    (((r &&& m) ||| (f0 &&& m)) &&& (f1 &&& m)) &&& f0 = f0 := by
  apply Nat.eq_of_testBit_eq
  intro i
  have h1 := congrArg (fun x => Nat.testBit x i) h
  have h2 := congrArg (fun x => Nat.testBit x i) hd
  simp only [Nat.testBit_land] at h1 h2 ⊢
  simp only [Nat.testBit_lor]
  cases hf0 : f0.testBit i <;> cases hf1 : f1.testBit i <;>
    cases hm : m.testBit i <;> cases hr : r.testBit i <;> simp_all

/-- Shared helper: the truncated merge leaves no bit outside FIXED1, for
every FIXED0/FIXED1 pair and every defined-flag mask below 2^64. -/
theorem truncated_merge_clears_non_fixed1 (r f0 f1 m : Nat) (hm : m < 2 ^ 64) :
    (((r &&& m) ||| (f0 &&& m)) &&& (f1 &&& m)) &&& complement64 f1 = 0 := by
  apply Nat.eq_of_testBit_eq
  intro i
  simp only [complement64, Nat.testBit_land, Nat.testBit_lor, Nat.testBit_xor,
    Nat.testBit_two_pow_sub_one, Nat.zero_testBit]
  by_cases hi : i < 64
  · have hd : decide (i < 64) = true := by simpa using hi
    rw [hd]
    cases f1.testBit i <;> simp
  · have hmf : m.testBit i = false := by
      apply Nat.testBit_lt_two_pow
      have : (2 : Nat) ^ 64 ≤ 2 ^ i := Nat.pow_le_pow_right (by norm_num) (by omega)
      omega
    simp [hmf]

/-- C3 counterexample: the property does not hold for every FIXED0/FIXED1
mask pair.  At CR0 = 0 with FIXED0 = 1, FIXED1 = 0 the written value fails
`(result & FIXED0) == FIXED0`; and even a pair with FIXED0 ⊆ FIXED1 fails
it when the FIXED0 bit lies outside the defined `Cr0` flags, because
`from_bits_truncate` drops it: at FIXED0 = FIXED1 = 1 << 7 the written
value is 0. -/
theorem set_cr_bits_every_mask_pair_counterexample :
    (¬ (set_cr0_bits 0 1 0 &&& 1 = 1 ∧ set_cr0_bits 0 1 0 &&& complement64 0 = 0)) ∧
    ((0x80 : Nat) &&& (0x80 : Nat) = 0x80 ∧
      ¬ (set_cr0_bits 0 0x80 0x80 &&& 0x80 = 0x80)) := by
  decide

/-- C3 (amended): for every initial CR0 and CR4 value and every
FIXED0/FIXED1 mask pair in which each FIXED0 bit is both a FIXED1 bit and
a flag bit defined by the x86 crate's `Cr0` (resp. `Cr4`) bitflags type —
as holds for the architectural FIXED0 values, whose mandatory-one bits
(PE, NE, PG for CR0; VMXE for CR4) are defined flags — the value written
back by `set_cr0_bits` (resp. `set_cr4_bits`) satisfies
`(result & FIXED0) == FIXED0` and `(result & ~FIXED1) == 0`; the second
equation holds unconditionally for every mask pair. -/
theorem set_cr_bits_respect_fixed_masks (cr0 f00 f01 cr4 f40 f41 : Nat)
    (h0 : f00 &&& f01 = f00) (h4 : f40 &&& f41 = f40)
    (hd0 : f00 &&& CR0_DEFINED_BITS = f00) (hd4 : f40 &&& CR4_DEFINED_BITS = f40) :
    (set_cr0_bits cr0 f00 f01 &&& f00 = f00 ∧
      set_cr0_bits cr0 f00 f01 &&& complement64 f01 = 0) ∧
    (set_cr4_bits cr4 f40 f41 &&& f40 = f40 ∧
      set_cr4_bits cr4 f40 f41 &&& complement64 f41 = 0) :=
  ⟨⟨truncated_merge_keeps_fixed0 cr0 f00 f01 CR0_DEFINED_BITS h0 hd0,
      truncated_merge_clears_non_fixed1 cr0 f00 f01 CR0_DEFINED_BITS (by decide)⟩,
    ⟨truncated_merge_keeps_fixed0 cr4 f40 f41 CR4_DEFINED_BITS h4 hd4,
      truncated_merge_clears_non_fixed1 cr4 f40 f41 CR4_DEFINED_BITS (by decide)⟩⟩

/-- C3 witness: the amended theorem applied at CR0 = 0x11 with the CR0 pair
(0x80000021, 0xE005003F) — the architectural PE|NE|PG mandatory-one bits —
and CR4 = 5 with the CR4 pair (0x2000, 0x776FFF) — the VMXE mandatory-one
bit. -/
theorem set_cr_bits_respect_fixed_masks_witness :
    ((0x80000021 : Nat) &&& 0xE005003F = 0x80000021 ∧
      (0x2000 : Nat) &&& 0x776FFF = 0x2000 ∧
      (0x80000021 : Nat) &&& CR0_DEFINED_BITS = 0x80000021 ∧
      (0x2000 : Nat) &&& CR4_DEFINED_BITS = 0x2000) ∧
    ((set_cr0_bits 0x11 0x80000021 0xE005003F &&& 0x80000021 = 0x80000021 ∧
        set_cr0_bits 0x11 0x80000021 0xE005003F &&& complement64 0xE005003F = 0) ∧
      (set_cr4_bits 5 0x2000 0x776FFF &&& 0x2000 = 0x2000 ∧
        set_cr4_bits 5 0x2000 0x776FFF &&& complement64 0x776FFF = 0)) :=
  ⟨⟨by decide, by decide, by decide, by decide⟩,
    set_cr_bits_respect_fixed_masks 0x11 0x80000021 0xE005003F 5 0x2000 0x776FFF
      (by decide) (by decide) (by decide) (by decide)⟩

/-- Shared helper: on a non-zero translation result, `init_vmxon` caches the
physical address and stamps the bit-31-cleared revision id, whatever the
VMXON outcome. -/
theorem init_vmxon_entry_of_ne (e : VcpuEntry) (pa raw : Nat) (b : Bool) (hpa : pa ≠ 0) :
    (init_vmxon e pa raw b).1 =
      { e with vmxon_physical_address := pa,
               vmxon_revision_id := set_bit31_false (raw % 2 ^ 32) } := by
  cases b <;> simp [init_vmxon, hpa]

/-- Shared helper: on a non-zero translation result, `init_vmcs` caches the
physical address and stamps the bit-31-cleared revision id, whatever the
VMPTRLD outcome. -/
theorem init_vmcs_entry_of_ne (e : VcpuEntry) (pa raw : Nat) (b : Bool) (hpa : pa ≠ 0) :
    (init_vmcs e pa raw b).1 =
      { e with vmcs_physical_address := pa,
               vmcs_revision_id := set_bit31_false (raw % 2 ^ 32) } := by
  cases b <;> simp [init_vmcs, hpa]

/-- Shared helper: the stored revision id always has bit 31 clear. -/
theorem set_bit31_false_testBit_31 (v : Nat) : (set_bit31_false v).testBit 31 = false := by
  simp [set_bit31_false, Nat.testBit_land, show Nat.testBit 2147483647 31 = false from by decide]

/-- Shared helper: below bit 31 the stored revision id agrees with the raw
query result. -/
theorem set_bit31_false_mod_testBit (v i : Nat) (hi : i < 31) :
    (set_bit31_false (v % 2 ^ 32)).testBit i = v.testBit i := by
  have h31 : Nat.testBit 2147483647 i = true := by
    have he : (2147483647 : Nat) = 2 ^ 31 - 1 := by norm_num
    rw [he, Nat.testBit_two_pow_sub_one]
    simpa using hi
  have h32 : (v % 4294967296).testBit i = v.testBit i := by
    have he : (4294967296 : Nat) = 2 ^ 32 := by norm_num
    rw [he, Nat.testBit_mod_two_pow]
    have hlt : i < 32 := by omega
    simp [hlt]
  simp [set_bit31_false, Nat.testBit_land, h31, h32]

/-- C4: for every raw value returned by the revision-id query and every
non-zero translation result, the `revision_id` header that `init_vmxon`
(resp. `init_vmcs`) leaves stored in the VMXON (resp. VMCS) region has bit
31 equal to 0 and bits 0..30 equal to the raw query result. -/
theorem init_revision_id_bit31_cleared (e : VcpuEntry) (pa raw : Nat)
    (b1 b2 : Bool) (hpa : pa ≠ 0) :
    ((init_vmxon e pa raw b1).1.vmxon_revision_id.testBit 31 = false ∧
      ∀ i, i < 31 →
        (init_vmxon e pa raw b1).1.vmxon_revision_id.testBit i = raw.testBit i) ∧
    ((init_vmcs e pa raw b2).1.vmcs_revision_id.testBit 31 = false ∧
      ∀ i, i < 31 →
        (init_vmcs e pa raw b2).1.vmcs_revision_id.testBit i = raw.testBit i) := by
  rw [init_vmxon_entry_of_ne e pa raw b1 hpa, init_vmcs_entry_of_ne e pa raw b2 hpa]
  exact ⟨⟨set_bit31_false_testBit_31 _, fun i hi => set_bit31_false_mod_testBit raw i hi⟩,
    ⟨set_bit31_false_testBit_31 _, fun i hi => set_bit31_false_mod_testBit raw i hi⟩⟩

/-- C4 witness: the theorem applied at pa = 7 and the raw revision id
0x8000001F (whose bit 31 is set), for both init functions. -/
theorem init_revision_id_bit31_cleared_witness :
    (7 : Nat) ≠ 0 ∧
    (((init_vmxon ⟨0, 0, 0, 0, 0⟩ 7 0x8000001F true).1.vmxon_revision_id.testBit 31 = false ∧
        ∀ i, i < 31 →
          (init_vmxon ⟨0, 0, 0, 0, 0⟩ 7 0x8000001F true).1.vmxon_revision_id.testBit i =
            (0x8000001F : Nat).testBit i) ∧
      ((init_vmcs ⟨0, 0, 0, 0, 0⟩ 7 0x8000001F true).1.vmcs_revision_id.testBit 31 = false ∧
        ∀ i, i < 31 →
          (init_vmcs ⟨0, 0, 0, 0, 0⟩ 7 0x8000001F true).1.vmcs_revision_id.testBit i =
            (0x8000001F : Nat).testBit i)) :=
  ⟨by decide, init_revision_id_bit31_cleared ⟨0, 0, 0, 0, 0⟩ 7 0x8000001F true true (by decide)⟩

/-- C5: when the virtual-to-physical translation of the region yields the
0 sentinel, `init_msr_bitmap`, `init_vmxon` and `init_vmcs` each return
`VirtualToPhysicalAddressFailed`; `init_vmxon` and `init_vmcs` invoke no
hardware instruction and leave the revision-id header untouched (the only
field written is the physical-address cache). -/
theorem zero_translation_fails_before_hardware (e : VcpuEntry) (raw : Nat) (b1 b2 : Bool) :
    init_msr_bitmap e 0 =
      ({ e with msr_bitmap_physical_address := 0 }, .error .VirtualToPhysicalAddressFailed) ∧
    init_vmxon e 0 raw b1 =
      ({ e with vmxon_physical_address := 0 }, [], .error .VirtualToPhysicalAddressFailed) ∧
    init_vmcs e 0 raw b2 =
      ({ e with vmcs_physical_address := 0 }, [], .error .VirtualToPhysicalAddressFailed) ∧
    (init_vmxon e 0 raw b1).1.vmxon_revision_id = e.vmxon_revision_id ∧
    (init_vmcs e 0 raw b2).1.vmcs_revision_id = e.vmcs_revision_id :=
  ⟨rfl, rfl, rfl, rfl, rfl⟩

/-- C8 counterexample: with the region entry holding non-zero caches and a
translation result of 0, `init_msr_bitmap` (and likewise `init_vmxon` and
`init_vmcs`) returns the error yet leaves the cached physical-address field
holding 0 — the field is written before the sentinel check, so the claim
that it is never left holding 0 on the error return path is false. -/
theorem cached_zero_on_error_counterexample :
    (init_msr_bitmap ⟨5, 5, 5, 0, 0⟩ 0).2 = .error .VirtualToPhysicalAddressFailed ∧
    (init_msr_bitmap ⟨5, 5, 5, 0, 0⟩ 0).1.msr_bitmap_physical_address = 0 ∧
    (init_vmxon ⟨5, 5, 5, 0, 0⟩ 0 9 true).1.vmxon_physical_address = 0 ∧
    (init_vmcs ⟨5, 5, 5, 0, 0⟩ 0 9 true).1.vmcs_physical_address = 0 :=
  ⟨rfl, rfl, rfl, rfl⟩

/-- C8 (amended): whenever `init_msr_bitmap`, `init_vmxon` or `init_vmcs`
returns success, the corresponding cached physical-address field is
non-zero; 0 can remain in the field only together with the
`VirtualToPhysicalAddressFailed` error return. -/
theorem cached_address_nonzero_on_success (e : VcpuEntry) (pa raw : Nat) (b1 b2 : Bool) :
    ((init_msr_bitmap e pa).2 = .ok () →
      (init_msr_bitmap e pa).1.msr_bitmap_physical_address ≠ 0) ∧
    ((init_vmxon e pa raw b1).2.2 = .ok () →
      (init_vmxon e pa raw b1).1.vmxon_physical_address ≠ 0) ∧
    ((init_vmcs e pa raw b2).2.2 = .ok () →
      (init_vmcs e pa raw b2).1.vmcs_physical_address ≠ 0) := by
  by_cases hpa : pa = 0
  · subst hpa
    refine ⟨fun hok => ?_, fun hok => ?_, fun hok => ?_⟩ <;>
      simp [init_msr_bitmap, init_vmxon, init_vmcs] at hok
  · cases b1 <;> cases b2 <;>
      exact ⟨fun _ => by simp [init_msr_bitmap, hpa],
        fun _ => by simp [init_vmxon, hpa],
        fun _ => by simp [init_vmcs, hpa]⟩

/-- C8 witness: the amended theorem applied at pa = 1 on a zeroed entry. -/
theorem cached_address_nonzero_on_success_witness :
    (init_msr_bitmap ⟨0, 0, 0, 0, 0⟩ 1).1.msr_bitmap_physical_address ≠ 0 ∧
    (init_vmxon ⟨0, 0, 0, 0, 0⟩ 1 9 true).1.vmxon_physical_address ≠ 0 ∧
    (init_vmcs ⟨0, 0, 0, 0, 0⟩ 1 9 true).1.vmcs_physical_address ≠ 0 :=
  ⟨(cached_address_nonzero_on_success ⟨0, 0, 0, 0, 0⟩ 1 9 true true).1 rfl,
    (cached_address_nonzero_on_success ⟨0, 0, 0, 0, 0⟩ 1 9 true true).2.1 rfl,
    (cached_address_nonzero_on_success ⟨0, 0, 0, 0, 0⟩ 1 9 true true).2.2 rfl⟩

/-- Shared helper: a call on an already-initialized `Vcpu` keeps the stored
`VcpuData` and its step trace contains no `VcpuDataNew`. -/
theorem virtualize_cpu_keeps_data (v : Vcpu) (env : Env) (d : VcpuData)
    (h : v.data = some d) :
    (virtualize_cpu v env).1.data = some d ∧
    Step.VcpuDataNew ∉ (virtualize_cpu v env).2.1 := by
  unfold virtualize_cpu
  cases he : (enable_vmx_operation env.cr4 env.feature_control).2.2 with
  | error err => simp [h]
  | ok u => cases hl : env.vmlaunch_succeeds <;> simp [getOrTryInit, h, hl]

/-- Shared helper: `runCalls` on an initialized `Vcpu` keeps the stored
`VcpuData` across the whole sequence and never re-runs construction. -/
theorem runCalls_keeps_data (envs : List Env) (v : Vcpu) (d : VcpuData)
    (h : v.data = some d) :
    (runCalls v envs).1.data = some d ∧
    Step.VcpuDataNew ∉ (runCalls v envs).2 := by
  induction envs generalizing v with
  | nil => simpa [runCalls] using h
  | cons e rest ih =>
    have h1 := virtualize_cpu_keeps_data v e d h
    have h2 := ih (virtualize_cpu v e).1 h1.1
    refine ⟨by simpa [runCalls] using h2.1, ?_⟩
    simp only [runCalls, List.mem_append]
    intro hmem
    rcases hmem with hmem | hmem
    · exact h1.2 hmem
    · exact h2.2 hmem

/-- C6: once a `virtualize_cpu` call has successfully initialized the
once-cell with some `VcpuData`, every later `virtualize_cpu` call on the
same `Vcpu` — any finite sequence of them — reuses that stored `VcpuData`
unchanged and never re-runs the `VcpuData` constructor, so the constructor
body executes at most once after the first successful initialization. -/
theorem vcpu_data_initialized_at_most_once (v : Vcpu) (e : Env) (envs : List Env)
    (d : VcpuData) (h : (virtualize_cpu v e).1.data = some d) :
    (runCalls (virtualize_cpu v e).1 envs).1.data = some d ∧
    Step.VcpuDataNew ∉ (runCalls (virtualize_cpu v e).1 envs).2 :=
  runCalls_keeps_data envs (virtualize_cpu v e).1 d h

/-- C6 witness: a fresh `Vcpu` initialized by one all-succeeding call, then
two further calls with different environments. -/
theorem vcpu_data_initialized_at_most_once_witness :
    (virtualize_cpu (Vcpu.new 0) ⟨0, 0, 1, 2, 3, 5, true, true, true⟩).1.data =
      some ⟨⟨1, 2, 3, 5, 5⟩⟩ ∧
    ((runCalls (virtualize_cpu (Vcpu.new 0) ⟨0, 0, 1, 2, 3, 5, true, true, true⟩).1
        [⟨0, 0, 9, 9, 9, 9, true, true, true⟩, ⟨0, 0, 0, 0, 0, 0, true, true, false⟩]).1.data =
      some ⟨⟨1, 2, 3, 5, 5⟩⟩ ∧
      Step.VcpuDataNew ∉
        (runCalls (virtualize_cpu (Vcpu.new 0) ⟨0, 0, 1, 2, 3, 5, true, true, true⟩).1
          [⟨0, 0, 9, 9, 9, 9, true, true, true⟩, ⟨0, 0, 0, 0, 0, 0, true, true, false⟩]).2) :=
  ⟨rfl, vcpu_data_initialized_at_most_once (Vcpu.new 0) ⟨0, 0, 1, 2, 3, 5, true, true, true⟩
    [⟨0, 0, 9, 9, 9, 9, true, true, true⟩, ⟨0, 0, 0, 0, 0, 0, true, true, false⟩]
    ⟨⟨1, 2, 3, 5, 5⟩⟩ rfl⟩

/-- C7: if `VcpuData` construction fails inside `virtualize_cpu`, the
once-cell stays empty, the call returns that construction error after
having executed only the enable, adjust and construction-attempt steps, and
a subsequent `virtualize_cpu` call attempts construction again. -/
theorem failed_init_leaves_cell_empty (v : Vcpu) (e1 e2 : Env) (err : HypervisorError)
    (h0 : v.data = none)
    (h1 : (enable_vmx_operation e1.cr4 e1.feature_control).2.2 = .ok ())
    (h2 : VcpuData.new e1 = .error err)
    (h3 : (enable_vmx_operation e2.cr4 e2.feature_control).2.2 = .ok ()) :
    (virtualize_cpu v e1).2.2 = .error err ∧
    (virtualize_cpu v e1).1.data = none ∧
    (virtualize_cpu v e1).2.1 = [.EnableVmx, .AdjustControlRegisters, .VcpuDataNew] ∧
    Step.VcpuDataNew ∈ (virtualize_cpu (virtualize_cpu v e1).1 e2).2.1 := by
  have hfirst : virtualize_cpu v e1 =
      ({ v with data := none }, [.EnableVmx, .AdjustControlRegisters, .VcpuDataNew],
        .error err) := by
    unfold virtualize_cpu
    rw [h1]
    simp [getOrTryInit, h0, h2]
  refine ⟨by rw [hfirst], by rw [hfirst], by rw [hfirst], ?_⟩
  rw [hfirst]
  unfold virtualize_cpu
  rw [h3]
  cases hn : VcpuData.new e2 with
  | error e => simp [getOrTryInit, hn]
  | ok d => cases hl : e2.vmlaunch_succeeds <;> simp [getOrTryInit, hn, hl]

/-- C7 witness: a fresh `Vcpu`, a first call whose MSR-bitmap translation
fails (constructor fails), then a second all-succeeding call that re-runs
construction. -/
theorem failed_init_leaves_cell_empty_witness :
    ((Vcpu.new 0).data = none ∧
      (enable_vmx_operation (0 : Nat) (0 : Nat)).2.2 = .ok () ∧
      VcpuData.new ⟨0, 0, 0, 2, 3, 5, true, true, true⟩ =
        .error .VirtualToPhysicalAddressFailed) ∧
    ((virtualize_cpu (Vcpu.new 0) ⟨0, 0, 0, 2, 3, 5, true, true, true⟩).2.2 =
        .error .VirtualToPhysicalAddressFailed ∧
      (virtualize_cpu (Vcpu.new 0) ⟨0, 0, 0, 2, 3, 5, true, true, true⟩).1.data = none ∧
      (virtualize_cpu (Vcpu.new 0) ⟨0, 0, 0, 2, 3, 5, true, true, true⟩).2.1 =
        [.EnableVmx, .AdjustControlRegisters, .VcpuDataNew] ∧
      Step.VcpuDataNew ∈
        (virtualize_cpu (virtualize_cpu (Vcpu.new 0) ⟨0, 0, 0, 2, 3, 5, true, true, true⟩).1
          ⟨0, 0, 1, 2, 3, 5, true, true, true⟩).2.1) :=
  ⟨⟨rfl, rfl, rfl⟩,
    failed_init_leaves_cell_empty (Vcpu.new 0) ⟨0, 0, 0, 2, 3, 5, true, true, true⟩
      ⟨0, 0, 1, 2, 3, 5, true, true, true⟩ .VirtualToPhysicalAddressFailed rfl rfl rfl rfl⟩

/-- C10: whenever the VMX-enable step succeeds, every `virtualize_cpu` call
— also on a `Vcpu` whose `VcpuData` is already initialized — executes the
VMX-enable step and the control-register adjustment as its first two steps,
before the once-cell is consulted; on an already-initialized `Vcpu` the
full trace is enable, adjust, VMLAUNCH, with no construction step. -/
theorem virtualize_cpu_reruns_enable_and_adjust (v : Vcpu) (env : Env)
    (h : (enable_vmx_operation env.cr4 env.feature_control).2.2 = .ok ()) :
    (virtualize_cpu v env).2.1.take 2 = [Step.EnableVmx, Step.AdjustControlRegisters] ∧
    ∀ d, v.data = some d →
      (virtualize_cpu v env).2.1 =
        [Step.EnableVmx, Step.AdjustControlRegisters, Step.Vmlaunch] := by
  unfold virtualize_cpu
  rw [h]
  cases hv : v.data with
  | some d =>
    cases hl : env.vmlaunch_succeeds <;> simp [getOrTryInit, hv, hl]
  | none =>
    cases hn : VcpuData.new env with
    | error e => simp [getOrTryInit, hv, hn]
    | ok d => cases hl : env.vmlaunch_succeeds <;> simp [getOrTryInit, hv, hn, hl]

/-- C10 witness: the theorem applied to an already-initialized `Vcpu` with
an environment whose region translations would all fail, showing the enable
and adjust steps still execute and only construction is skipped. -/
theorem virtualize_cpu_reruns_enable_and_adjust_witness :
    (enable_vmx_operation (0 : Nat) (0 : Nat)).2.2 = .ok () ∧
    ((virtualize_cpu ⟨0, some ⟨⟨1, 2, 3, 5, 5⟩⟩⟩ ⟨0, 0, 0, 0, 0, 0, true, true, true⟩).2.1.take 2 =
        [Step.EnableVmx, Step.AdjustControlRegisters] ∧
      ∀ d, (⟨0, some ⟨⟨1, 2, 3, 5, 5⟩⟩⟩ : Vcpu).data = some d →
        (virtualize_cpu ⟨0, some ⟨⟨1, 2, 3, 5, 5⟩⟩⟩ ⟨0, 0, 0, 0, 0, 0, true, true, true⟩).2.1 =
          [Step.EnableVmx, Step.AdjustControlRegisters, Step.Vmlaunch]) :=
  ⟨rfl, virtualize_cpu_reruns_enable_and_adjust ⟨0, some ⟨⟨1, 2, 3, 5, 5⟩⟩⟩
    ⟨0, 0, 0, 0, 0, 0, true, true, true⟩ rfl⟩
